import Mathlib

/-!
Verification of the `mkl-sys` build script (`build.rs`).

The script is a single-shot cargo build script: it resolves the MKL
installation directories from environment variables and the filesystem,
emits cargo link directives, computes clang flags, selects bindgen
allowlists from cargo features, and invokes the binding generator.

The shallow embedding below models:
  * the cargo feature selection as a record of `Bool`s (`Features`),
  * the compile-time target OS (`cfg!(target_os = ...)`) as `TargetOS`,
  * the process environment (`std::env::var`) as `String → Option String`,
  * the filesystem existence check (`PathBuf::exists`) as `String → Bool`,
  * `println!` output as an accumulated `List String`,
  * the control flow of `main` as a pure function that also produces an
    event trace (`Step`) recording the order of the configuration steps.
-/

/-- Cargo feature selection of the `mkl-sys` crate (each `cfg!(feature = ...)`
test in `build.rs` reads one of these flags). -/
structure Features where
  all : Bool
  dss : Bool
  axpy : Bool
  sparse_matrix_checker : Bool
  extended_eigensolver : Bool
  inspector_executor : Bool
  ilp64 : Bool
  openmp : Bool
  tbb : Bool
deriving DecidableEq, Repr

/-- The compile-time target OS tested by `cfg!(target_os = ...)`. The build
script panics on any other OS before reaching the code modelled here, so only
the three supported systems appear. -/
inductive TargetOS where
  | windows
  | linux
  | macos
deriving DecidableEq, Repr

/-- Process environment: `env::var(name)` returns `some value` when the
variable is set (to valid unicode) and an error otherwise. -/
abbrev Env := String → Option String

/-- Filesystem state: `fs p = true` models `PathBuf::from(p).exists()`. -/
abbrev FS := String → Bool

/-- The struct `InstallationDirectories` of `build.rs`: paths required for
linking to MKL. -/
structure InstallationDirectories where
  mkl_lib_dir : String
  omp_lib_dir : String
  tbb_lib_dir : String
  include_dir : String
deriving DecidableEq, Repr

/-- Rust `PathBuf::from(s).to_str()`. A `PathBuf` built from a Rust `String`
or `&str` is valid UTF-8, so the conversion back always succeeds; the
`ok_or(...)` error branches in `build.rs` are dead code. -/
def pathToStr (s : String) : Option String := some s

/-- Function `get_static_link_libs_windows` of `build.rs`. -/
def get_static_link_libs_windows (f : Features) : List String :=
  (if f.ilp64 = true then ["mkl_intel_ilp64"] else ["mkl_intel_lp64"])
  ++ (if f.openmp = true then ["mkl_intel_thread"]
      else if f.tbb = true then ["mkl_tbb_thread"]
      else ["mkl_sequential"])
  ++ ["mkl_core"]
  ++ (if f.openmp = true then ["libiomp5md"] else [])

/-- Function `get_static_link_libs_macos` of `build.rs`. -/
def get_static_link_libs_macos (f : Features) : List String :=
  (if f.ilp64 = true then ["mkl_intel_ilp64"] else ["mkl_intel_lp64"])
  ++ (if f.openmp = true then ["mkl_intel_thread"]
      else if f.tbb = true then ["mkl_tbb_thread"]
      else ["mkl_sequential"])
  ++ ["mkl_core"]

/-- Function `get_static_link_libs_linux` of `build.rs`. -/
def get_static_link_libs_linux (f : Features) : List String :=
  (if f.ilp64 = true then ["mkl_intel_ilp64"] else ["mkl_intel_lp64"])
  ++ (if f.openmp = true then ["mkl_intel_thread"]
      else if f.tbb = true then ["mkl_tbb_thread"]
      else ["mkl_sequential"])
  ++ ["mkl_core"]

/-- Function `get_static_link_libs` of `build.rs` (the OS dispatch; the
unsupported-OS panic branch is unreachable for the three modelled systems). -/
def get_static_link_libs (os : TargetOS) (f : Features) : List String :=
  match os with
  | .windows => get_static_link_libs_windows f
  | .linux => get_static_link_libs_linux f
  | .macos => get_static_link_libs_macos f

/-- Function `get_dynamic_link_libs_windows` of `build.rs`. -/
def get_dynamic_link_libs_windows (f : Features) : List String :=
  if f.tbb = true then ["tbb"] else []

/-- Function `get_dynamic_link_libs_linux` of `build.rs`. -/
def get_dynamic_link_libs_linux (f : Features) : List String :=
  (if f.openmp = true then ["iomp5"]
   else if f.tbb = true then ["tbb"]
   else [])
  ++ ["pthread", "m", "dl", "stdc++"]

/-- Function `get_dynamic_link_libs_macos` of `build.rs`. -/
def get_dynamic_link_libs_macos (f : Features) : List String :=
  (if f.openmp = true then ["iomp5"] else []) ++ ["pthread", "m", "dl"]

/-- Function `get_dynamic_link_libs` of `build.rs`. -/
def get_dynamic_link_libs (os : TargetOS) (f : Features) : List String :=
  match os with
  | .windows => get_dynamic_link_libs_windows f
  | .linux => get_dynamic_link_libs_linux f
  | .macos => get_dynamic_link_libs_macos f

/-- Function `get_lib_dirs` of `build.rs`. -/
def get_lib_dirs (f : Features) (install_dirs : InstallationDirectories) : List String :=
  [install_dirs.mkl_lib_dir]
  ++ (if f.openmp = true then [install_dirs.omp_lib_dir]
      else if f.tbb = true then [install_dirs.tbb_lib_dir]
      else [])

/-- Function `get_cflags_windows` of `build.rs`. -/
def get_cflags_windows (f : Features) (install_dirs : Option InstallationDirectories) :
    List String :=
  (if f.ilp64 = true then ["-DMKL_ILP64"] else [])
  ++ (match install_dirs with
      | some d => ["--include-directory", d.include_dir]
      | none => [])

/-- Function `get_cflags_linux` of `build.rs`. -/
def get_cflags_linux (f : Features) (install_dirs : Option InstallationDirectories) :
    List String :=
  (if f.ilp64 = true then ["-DMKL_ILP64"] else [])
  ++ (match install_dirs with
      | some d => ["-I", d.include_dir]
      | none => ["-I", "/usr/include/mkl"])

/-- Function `get_cflags_macos` of `build.rs`. -/
def get_cflags_macos (f : Features) (install_dirs : Option InstallationDirectories) :
    List String :=
  (if f.ilp64 = true then ["-DMKL_ILP64"] else [])
  ++ (match install_dirs with
      | some d => ["-I", d.include_dir]
      | none => [])

/-- Function `get_cflags` of `build.rs`. -/
def get_cflags (os : TargetOS) (f : Features) (install_dirs : Option InstallationDirectories) :
    List String :=
  match os with
  | .windows => get_cflags_windows f install_dirs
  | .linux => get_cflags_linux f install_dirs
  | .macos => get_cflags_macos f install_dirs

/-- Claim-side description (from the spec sentence of C1) of the static link
library list: first the integer-width library chosen by `ilp64`, then the
threading library chosen by `openmp`/`tbb`, then `mkl_core`, and on windows
with openmp also `libiomp5md` last. -/
def claimStaticLibs (os : TargetOS) (f : Features) : List String :=
  [if f.ilp64 = true then "mkl_intel_ilp64" else "mkl_intel_lp64",
   if f.openmp = true then "mkl_intel_thread"
   else if f.tbb = true then "mkl_tbb_thread"
   else "mkl_sequential",
   "mkl_core"]
  ++ (if os = TargetOS.windows ∧ f.openmp = true then ["libiomp5md"] else [])

/-- C1: for every target operating system and feature selection, the static
link library list is exactly: `mkl_intel_ilp64` or `mkl_intel_lp64` by the
`ilp64` feature, then `mkl_intel_thread` / `mkl_tbb_thread` /
`mkl_sequential` by the threading features, then `mkl_core`, and on windows
with `openmp` enabled `libiomp5md` appended last. The list depends only on
the OS and the features. -/
theorem static_link_libs_spec (os : TargetOS) (f : Features) :
    get_static_link_libs os f = claimStaticLibs os f := by
  obtain ⟨a, d, x, s, e, i, il, om, tb⟩ := f
  cases os <;> cases il <;> cases om <;> cases tb <;> rfl

/-- C6: the clang flag list contains `-DMKL_ILP64` exactly when `ilp64` is
enabled (it is the head of the list in that case and absent otherwise), and
the include flags are: with resolved directories, `--include-directory dir`
on windows and `-I dir` on linux/macos naming exactly the resolved
`include_dir`; without resolved directories, linux still passes
`-I /usr/include/mkl` while windows and macos pass no include flag. -/
theorem cflags_spec (f : Features) (od : Option InstallationDirectories) :
    get_cflags TargetOS.windows f od =
      (if f.ilp64 = true then ["-DMKL_ILP64"] else [])
      ++ (match od with
          | some d => ["--include-directory", d.include_dir]
          | none => [])
    ∧ get_cflags TargetOS.linux f od =
      (if f.ilp64 = true then ["-DMKL_ILP64"] else [])
      ++ ["-I", match od with | some d => d.include_dir | none => "/usr/include/mkl"]
    ∧ get_cflags TargetOS.macos f od =
      (if f.ilp64 = true then ["-DMKL_ILP64"] else [])
      ++ (match od with
          | some d => ["-I", d.include_dir]
          | none => []) := by
  refine ⟨rfl, ?_, rfl⟩
  cases od <;> rfl

/-- Method `InstallationDirectories::try_custom` of `build.rs`: converts the
four paths, prints a `cargo:warning` line for each checked directory that
does not exist (the omp/tbb directories are only checked when the
corresponding feature is enabled), and returns the record. The second
component of the result collects the printed warning lines in order. -/
def try_custom (fs : FS) (f : Features)
    (mkl_lib_dir mkl_include_dir tbb_lib_dir omp_lib_dir : String) :
    Except String (InstallationDirectories × List String) :=
  match pathToStr mkl_lib_dir with
  | none => Except.error "Unable to convert mkl_lib_dir_path to string"
  | some lib_dir_str =>
  match pathToStr omp_lib_dir with
  | none => Except.error "Unable to convert omp_lib_dir_path to string"
  | some omp_lib_dir_str =>
  match pathToStr tbb_lib_dir with
  | none => Except.error "Unable to convert tbb_lib_dir_path to string"
  | some tbb_lib_dir_str =>
  match pathToStr mkl_include_dir with
  | none => Except.error "Unable to convert mkl_include_dir_path to string"
  | some mkl_include_dir_str =>
  let warnings :=
    (if fs lib_dir_str = false then
      ["cargo:warning=" ++ ("The mkl_lib_dir_path folder with path " ++ lib_dir_str
        ++ " does not exist.")]
     else [])
    ++ (if f.openmp = true ∧ fs omp_lib_dir_str = false then
      ["cargo:warning=" ++ ("The omp_lib_dir_path folder with path " ++ omp_lib_dir_str
        ++ " does not exist.")]
     else [])
    ++ (if f.tbb = true ∧ fs tbb_lib_dir_str = false then
      ["cargo:warning=" ++ ("The tbb_lib_dir_path folder with path " ++ tbb_lib_dir_str
        ++ " does not exist.")]
     else [])
    ++ (if fs mkl_include_dir_str = false then
      ["cargo:warning=" ++ ("The mkl_include_dir_path folder with path " ++ mkl_include_dir_str
        ++ " does not exist.")]
     else [])
  Except.ok
    ({ mkl_lib_dir := lib_dir_str, omp_lib_dir := omp_lib_dir_str,
       tbb_lib_dir := tbb_lib_dir_str, include_dir := mkl_include_dir_str },
     warnings)

/-- Method `InstallationDirectories::try_custom_env` of `build.rs`: reads
`MKL_LIB_DIR` and `MKL_INCLUDE_DIR`, and `TBB_LIB_DIR` / `OMP_LIB_DIR` only
when the `tbb` / `openmp` feature is enabled (otherwise those default to the
empty string), then delegates to `try_custom`. -/
def try_custom_env (env : Env) (fs : FS) (f : Features) :
    Except String (InstallationDirectories × List String) :=
  match env "MKL_LIB_DIR" with
  | none => Except.error "MKL_LIB_DIR environment variable not found"
  | some mkl_lib_dir =>
  match env "MKL_INCLUDE_DIR" with
  | none => Except.error "MKL_INCLUDE_DIR environment variable not found"
  | some mkl_include_dir =>
  match (if f.tbb = true then
           match env "TBB_LIB_DIR" with
           | none => Except.error "TBB_LIB_DIR environment variable not found"
           | some v => Except.ok v
         else Except.ok "") with
  | Except.error e => Except.error e
  | Except.ok tbb_lib_dir =>
  match (if f.openmp = true then
           match env "OMP_LIB_DIR" with
           | none => Except.error "OMP_LIB_DIR environment variable not found"
           | some v => Except.ok v
         else Except.ok "") with
  | Except.error e => Except.error e
  | Except.ok omp_lib_dir =>
    try_custom fs f mkl_lib_dir mkl_include_dir tbb_lib_dir omp_lib_dir

/-- Method `InstallationDirectories::try_from_root` of `build.rs`: derives
the mkl/tbb/compiler paths from a oneAPI root folder, warns when the mkl
root does not exist, then delegates to `try_custom`. -/
def try_from_root (os : TargetOS) (fs : FS) (f : Features) (root : String) :
    Except String (InstallationDirectories × List String) :=
  let itype := "intel64"
  let tbb_lib_subdir :=
    match os with
    | .linux => "/" ++ itype ++ "/gcc4.8"
    | .windows => "/" ++ itype ++ "/vc14"
    | .macos => ""
  let tbb_root := root ++ "/tbb/latest"
  let mkl_root := root ++ "/mkl/latest"
  let compiler_root := root ++ "/compiler/latest"
  let mkl_lib_dir := mkl_root ++ "/lib"
  let tbb_lib_dir := tbb_root ++ "/lib" ++ tbb_lib_subdir
  let omp_lib_dir := compiler_root ++ "/lib"
  let include_dir := mkl_root ++ "/include"
  match pathToStr mkl_root with
  | none => Except.error "Unable to convert mkl_root to string"
  | some mkl_root_str =>
  let root_warning :=
    if fs mkl_root_str = false then
      ["cargo:warning=The mkl_root folder with path " ++ mkl_root_str
        ++ " does not exist."]
    else []
  match try_custom fs f mkl_lib_dir include_dir tbb_lib_dir omp_lib_dir with
  | Except.error e => Except.error e
  | Except.ok (d, w) => Except.ok (d, root_warning ++ w)

/-- Method `InstallationDirectories::try_from_env_root` of `build.rs`: reads
`ONEAPI_ROOT` and delegates to `try_from_root`. -/
def try_from_env_root (os : TargetOS) (env : Env) (fs : FS) (f : Features) :
    Except String (InstallationDirectories × List String) :=
  match env "ONEAPI_ROOT" with
  | none => Except.error
      ("ONEAPI_ROOT environment variable not found -- remember to run the setvars script bundled with oneAPI in order to set up the required environment variables")
  | some oneapi_root => try_from_root os fs f oneapi_root

/-- Method `InstallationDirectories::try_system` of `build.rs`: only linux
has a default system installation path; every other target OS is an error. -/
def try_system (os : TargetOS) (fs : FS) (f : Features) :
    Except String (InstallationDirectories × List String) :=
  if os ≠ TargetOS.linux then
    Except.error "Cannot determine default MKL installation path in target OS"
  else
    let mkl_lib_dir := "/lib/x86_64-linux-gnu"
    let tbb_lib_dir := mkl_lib_dir
    let omp_lib_dir := mkl_lib_dir
    let include_dir := "/usr/include/mkl"
    try_custom fs f mkl_lib_dir include_dir tbb_lib_dir omp_lib_dir

/-- C3: `try_custom` never fails: for every filesystem state, feature
selection and input path strings it returns `Ok` with an
`InstallationDirectories` holding exactly the given strings, and the printed
lines are all `cargo:warning` lines, at most one per checked missing
directory (so at most four in total), and none when every directory
exists. -/
theorem try_custom_always_ok (fs : FS) (f : Features)
    (mkl_lib_dir mkl_include_dir tbb_lib_dir omp_lib_dir : String) :
    ∃ ws : List String,
      try_custom fs f mkl_lib_dir mkl_include_dir tbb_lib_dir omp_lib_dir =
        Except.ok
          ({ mkl_lib_dir := mkl_lib_dir, omp_lib_dir := omp_lib_dir,
             tbb_lib_dir := tbb_lib_dir, include_dir := mkl_include_dir }, ws)
      ∧ ws.length ≤
          (if fs mkl_lib_dir = false then 1 else 0)
          + (if fs omp_lib_dir = false then 1 else 0)
          + (if fs tbb_lib_dir = false then 1 else 0)
          + (if fs mkl_include_dir = false then 1 else 0)
      ∧ (∀ w ∈ ws, ∃ rest, w = "cargo:warning=" ++ rest)
      ∧ (fs mkl_lib_dir = true → fs omp_lib_dir = true → fs tbb_lib_dir = true →
          fs mkl_include_dir = true → ws = []) := by
  refine ⟨_, rfl, ?_, ?_, ?_⟩
  · cases h1 : fs mkl_lib_dir <;> cases h2 : fs omp_lib_dir <;>
      cases h3 : fs tbb_lib_dir <;> cases h4 : fs mkl_include_dir <;>
      by_cases ho : f.openmp = true <;> by_cases ht : f.tbb = true <;>
      simp [h1, h2, h3, h4, ho, ht, pathToStr]
  · intro w hw
    simp only [pathToStr, List.mem_append] at hw
    rcases hw with ((hw | hw) | hw) | hw <;>
      (split at hw <;> simp only [List.mem_singleton, List.not_mem_nil] at hw) <;>
      exact ⟨_, hw⟩
  · intro h1 h2 h3 h4
    simp [pathToStr, h1, h2, h3, h4]

/-- Events recording the configuration steps `main` performs, in order:
the three resolution strategies (with their success flag), the emitted cargo
directives, the clang-flag computation, the bindgen allowlist selection, and
the invocation of the binding generator. -/
inductive Step where
  | resolveCustomEnv (ok : Bool)
  | resolveEnvRoot (ok : Bool)
  | resolveSystem (ok : Bool)
  | emitLinkSearch (dir : String)
  | emitStaticLib (lib : String)
  | emitDynLib (lib : String)
  | computeCflags (args : List String)
  | selectAllowlists
  | generateBindings (args : List String)
deriving DecidableEq, Repr

/-- Test for a `resolveCustomEnv` event. -/
def Step.isResolveCustomEnv : Step → Bool
  | .resolveCustomEnv _ => true
  | _ => false

/-- Test for a `resolveEnvRoot` event. -/
def Step.isResolveEnvRoot : Step → Bool
  | .resolveEnvRoot _ => true
  | _ => false

/-- Test for a `resolveSystem` event. -/
def Step.isResolveSystem : Step → Bool
  | .resolveSystem _ => true
  | _ => false

/-- Test for any resolution event. -/
def Step.isResolve : Step → Bool
  | .resolveCustomEnv _ => true
  | .resolveEnvRoot _ => true
  | .resolveSystem _ => true
  | _ => false

/-- Test for any cargo directive emission event. -/
def Step.isEmit : Step → Bool
  | .emitLinkSearch _ => true
  | .emitStaticLib _ => true
  | .emitDynLib _ => true
  | _ => false

/-- Test for a `emitLinkSearch` event. -/
def Step.isEmitLinkSearch : Step → Bool
  | .emitLinkSearch _ => true
  | _ => false

/-- Test for a `computeCflags` event. -/
def Step.isComputeCflags : Step → Bool
  | .computeCflags _ => true
  | _ => false

/-- Test for the `selectAllowlists` event. -/
def Step.isSelectAllowlists : Step → Bool
  | .selectAllowlists => true
  | _ => false

/-- Test for a `generateBindings` event. -/
def Step.isGenerate : Step → Bool
  | .generateBindings _ => true
  | _ => false

/-- The `install_dirs` resolution chain of `main` (`build.rs` lines 411-428):
`try_custom_env`, then on failure `try_from_env_root`, then on failure
`try_system`; each failure prints a `WARNING:` line. Returns the resolved
directories (if any), the trace of attempted strategies, and the printed
lines in order. -/
def resolveInstallDirs (os : TargetOS) (env : Env) (fs : FS) (f : Features) :
    Option InstallationDirectories × List Step × List String :=
  match try_custom_env env fs f with
  | Except.ok (d, w) => (some d, [Step.resolveCustomEnv true], w)
  | Except.error e1 =>
    match try_from_env_root os env fs f with
    | Except.ok (d, w) =>
      (some d, [Step.resolveCustomEnv false, Step.resolveEnvRoot true],
       ("WARNING: " ++ e1) :: w)
    | Except.error e2 =>
      match try_system os fs f with
      | Except.ok (d, w) =>
        (some d,
         [Step.resolveCustomEnv false, Step.resolveEnvRoot false, Step.resolveSystem true],
         ("WARNING: " ++ e1) :: ("WARNING: " ++ e2) :: w)
      | Except.error e3 =>
        (none,
         [Step.resolveCustomEnv false, Step.resolveEnvRoot false, Step.resolveSystem false],
         [("WARNING: " ++ e1), ("WARNING: " ++ e2), ("WARNING: " ++ e3)])

/-- The feature test guarding the panic at the top of `main`: at least one of
the MKL module features must be selected. -/
def moduleFeatureSelected (f : Features) : Bool :=
  f.all || f.dss || f.axpy || f.sparse_matrix_checker || f.extended_eigensolver
    || f.inspector_executor

/-- The panic message of `main` when no MKL module feature is selected. -/
def noModulesMsg : String :=
  "No MKL modules selected.\nTo use this library, please select the features corresponding to MKL modules that you would like to use, or enable the `all` feature if you would like to generate symbols for all modules."

/-- The allowlist-relevant state of a `bindgen::Builder`: the registered
function, type and variable allowlist patterns, in registration order. -/
structure Builder where
  allow_functions : List String
  allow_types : List String
  allow_vars : List String
deriving DecidableEq, Repr

/-- A builder with no allowlist patterns registered
(`bindgen::Builder::default()` state as far as allowlists go). -/
def defaultBuilder : Builder :=
  { allow_functions := [], allow_types := [], allow_vars := [] }

/-- The `dss_regex` literal of `build.rs`. -/
def dss_regex : String := "(dss_.*)|(DSS_.*)|(MKL_DSS.*)"

/-- The allowlist selection block of `main` (`build.rs` lines 457-498): when
the `all` feature is enabled the whole block is compiled out and the builder
is untouched; otherwise each enabled module feature registers its allowlist
patterns in source order. -/
def applyAllowlists (f : Features) (b : Builder) : Builder :=
  if f.all = true then b
  else
    let b :=
      if f.axpy = true then
        { b with allow_functions := b.allow_functions ++ ["daxpy", "cblas_daxpy"] }
      else b
    let b :=
      if f.dss = true then
        { b with allow_functions := b.allow_functions ++ [dss_regex],
                 allow_types := b.allow_types ++ [dss_regex],
                 allow_vars := b.allow_vars ++ [dss_regex] }
      else b
    let b :=
      if f.sparse_matrix_checker = true then
        { b with allow_functions :=
            b.allow_functions ++ ["sparse_matrix_checker*", "sparse_matrix_checker_init*"] }
      else b
    let b :=
      if f.extended_eigensolver = true then
        { b with allow_functions :=
            b.allow_functions
              ++ [".*feast.*", "mkl_sparse_ee_init", "mkl_sparse_._svd",
                  "mkl_sparse_._ev", "mkl_sparse_._gv"] }
      else b
    let b :=
      if f.inspector_executor = true then
        { b with allow_functions := b.allow_functions ++ ["mkl_sparse_.*"] }
      else b
    b

/-- Result of one run of the build script `main`: the step trace, the lines
printed to stdout, the panic message if it panicked, the clang argument list
handed to bindgen, and the path the bindings are written to. -/
structure BuildResult where
  trace : List Step
  printed : List String
  panicked : Option String
  clang_args : Option (List String)
  out_path : Option String
deriving DecidableEq, Repr

/-- Function `main` of `build.rs` as a pure function of the target OS, the
environment, the filesystem and the feature selection. The module-feature
panic happens before anything else; then the three-strategy resolution runs;
then the link-search / static-lib / dynamic-lib directives are printed; then
the clang flags are computed, the allowlists selected, and the generator
invoked; finally the bindings are written to `$OUT_DIR/bindings.rs` (a panic
when `OUT_DIR` is unset, after everything else already ran). -/
def mainRun (os : TargetOS) (env : Env) (fs : FS) (f : Features) : BuildResult :=
  if moduleFeatureSelected f = false then
    { trace := [], printed := [], panicked := some noModulesMsg,
      clang_args := none, out_path := none }
  else
    let r := resolveInstallDirs os env fs f
    let install_dirs := r.1
    let search_dirs :=
      match install_dirs with
      | some d => get_lib_dirs f d
      | none => []
    let static_libs := get_static_link_libs os f
    let dynamic_libs := get_dynamic_link_libs os f
    let args := get_cflags os f install_dirs
    let trace := r.2.1
      ++ search_dirs.map Step.emitLinkSearch
      ++ static_libs.map Step.emitStaticLib
      ++ dynamic_libs.map Step.emitDynLib
      ++ [Step.computeCflags args, Step.selectAllowlists, Step.generateBindings args]
    let printed := r.2.2
      ++ search_dirs.map (fun d => "cargo:rustc-link-search=native=" ++ d)
      ++ static_libs.map (fun l => "cargo:rustc-link-lib=static=" ++ l)
      ++ dynamic_libs.map (fun l => "cargo:rustc-link-lib=" ++ l)
    match env "OUT_DIR" with
    | none =>
      { trace := trace, printed := printed,
        panicked := some "OUT_DIR environment variable not found",
        clang_args := some args, out_path := none }
    | some out =>
      { trace := trace, printed := printed, panicked := none,
        clang_args := some args, out_path := some (out ++ "/bindings.rs") }

/-- The resolution trace is one of four lists, each listing the attempted
strategies in order with a later strategy present only after the failure of
all earlier ones. -/
theorem resolveTrace_cases (os : TargetOS) (env : Env) (fs : FS) (f : Features) :
    (resolveInstallDirs os env fs f).2.1 = [Step.resolveCustomEnv true]
    ∨ (resolveInstallDirs os env fs f).2.1
        = [Step.resolveCustomEnv false, Step.resolveEnvRoot true]
    ∨ (resolveInstallDirs os env fs f).2.1
        = [Step.resolveCustomEnv false, Step.resolveEnvRoot false, Step.resolveSystem true]
    ∨ (resolveInstallDirs os env fs f).2.1
        = [Step.resolveCustomEnv false, Step.resolveEnvRoot false, Step.resolveSystem false] := by
  rcases h1 : try_custom_env env fs f with e1 | ⟨d1, w1⟩
  · rcases h2 : try_from_env_root os env fs f with e2 | ⟨d2, w2⟩
    · rcases h3 : try_system os fs f with e3 | ⟨d3, w3⟩
      · simp [resolveInstallDirs, h1, h2, h3]
      · simp [resolveInstallDirs, h1, h2, h3]
    · simp [resolveInstallDirs, h1, h2]
  · simp [resolveInstallDirs, h1]

/-- When a module feature is selected, the trace of `mainRun` decomposes into
the resolution events followed by the directive emissions, the clang-flag
computation, the allowlist selection, and the generator invocation. -/
theorem mainRun_trace_decomp (os : TargetOS) (env : Env) (fs : FS) (f : Features)
    (hm : moduleFeatureSelected f = true) :
    (mainRun os env fs f).trace =
      (resolveInstallDirs os env fs f).2.1
      ++ (match (resolveInstallDirs os env fs f).1 with
          | some d => get_lib_dirs f d
          | none => []).map Step.emitLinkSearch
      ++ (get_static_link_libs os f).map Step.emitStaticLib
      ++ (get_dynamic_link_libs os f).map Step.emitDynLib
      ++ [Step.computeCflags (get_cflags os f (resolveInstallDirs os env fs f).1),
          Step.selectAllowlists,
          Step.generateBindings (get_cflags os f (resolveInstallDirs os env fs f).1)] := by
  unfold mainRun
  rw [hm]
  cases env "OUT_DIR" <;> rfl

/-- Counting with the constantly-false predicate gives zero. -/
theorem countP_const_false {α : Type} (l : List α) : l.countP (fun _ => false) = 0 := by
  induction l with
  | nil => rfl
  | cons a l ih => simp [List.countP_cons, ih]

/-- C2: the configuration steps are single-pass and never retried: in the
trace of any build invocation each of the three path-resolution strategies
occurs at most once, and the clang-flag computation, the allowlist selection
and the generator invocation each occur at most once. -/
theorem single_pass_no_retry (os : TargetOS) (env : Env) (fs : FS) (f : Features) :
    ((mainRun os env fs f).trace.countP Step.isResolveCustomEnv ≤ 1
     ∧ (mainRun os env fs f).trace.countP Step.isResolveEnvRoot ≤ 1
     ∧ (mainRun os env fs f).trace.countP Step.isResolveSystem ≤ 1)
    ∧ ((mainRun os env fs f).trace.countP Step.isComputeCflags ≤ 1
     ∧ (mainRun os env fs f).trace.countP Step.isSelectAllowlists ≤ 1
     ∧ (mainRun os env fs f).trace.countP Step.isGenerate ≤ 1) := by
  cases hm : moduleFeatureSelected f with
  | false => simp [mainRun, hm]
  | true =>
    rw [mainRun_trace_decomp os env fs f hm]
    rcases resolveTrace_cases os env fs f with h | h | h | h <;>
      rw [h] <;>
      refine ⟨⟨?_, ?_, ?_⟩, ?_, ?_, ?_⟩ <;>
      simp [List.countP_append, List.countP_map, List.countP_cons, List.countP_nil,
        Function.comp_def, countP_const_false, Step.isResolveCustomEnv,
        Step.isResolveEnvRoot, Step.isResolveSystem, Step.isComputeCflags,
        Step.isSelectAllowlists, Step.isGenerate]

/-- C8: when no MKL module feature is selected, `main` panics with the
message asking the user to select MKL module features, before attempting any
path resolution and before printing any build directive: the trace and the
printed output are empty. -/
theorem panic_when_no_modules (os : TargetOS) (env : Env) (fs : FS) (f : Features)
    (h : moduleFeatureSelected f = false) :
    (mainRun os env fs f).panicked = some noModulesMsg
    ∧ (mainRun os env fs f).trace = []
    ∧ (mainRun os env fs f).printed = [] := by
  simp [mainRun, h]

/-- Witness for `panic_when_no_modules` at the all-features-off selection. -/
theorem panic_when_no_modules_witness :
    (mainRun TargetOS.linux (fun _ => none) (fun _ => false)
        ⟨false, false, false, false, false, false, false, false, false⟩).panicked
      = some noModulesMsg
    ∧ (mainRun TargetOS.linux (fun _ => none) (fun _ => false)
        ⟨false, false, false, false, false, false, false, false, false⟩).trace = []
    ∧ (mainRun TargetOS.linux (fun _ => none) (fun _ => false)
        ⟨false, false, false, false, false, false, false, false, false⟩).printed = [] :=
  panic_when_no_modules TargetOS.linux (fun _ => none) (fun _ => false)
    ⟨false, false, false, false, false, false, false, false, false⟩ rfl

/-- When a module feature is selected, the clang argument list handed to the
generator is the one computed by `get_cflags` from the resolved
directories. -/
theorem mainRun_clang_args (os : TargetOS) (env : Env) (fs : FS) (f : Features)
    (hm : moduleFeatureSelected f = true) :
    (mainRun os env fs f).clang_args
      = some (get_cflags os f (resolveInstallDirs os env fs f).1) := by
  unfold mainRun
  rw [hm]
  cases env "OUT_DIR" <;> rfl

/-- C7: on every build invocation (with a module feature selected, otherwise
`main` panics first), the trace is: resolution events first, then only
directive emission events, then the clang-flag computation, then the
allowlist selection, and finally the generator invocation, which occurs
exactly once, last, and receives exactly the computed clang argument
list. No directive emission precedes the resolution events. -/
theorem main_step_order (os : TargetOS) (env : Env) (fs : FS) (f : Features)
    (hm : moduleFeatureSelected f = true) :
    ∃ (resolution emission : List Step) (args : List String),
      (mainRun os env fs f).trace =
        resolution ++ emission
          ++ [Step.computeCflags args, Step.selectAllowlists, Step.generateBindings args]
      ∧ (∀ s ∈ resolution, s.isResolve = true)
      ∧ (∀ s ∈ emission, s.isEmit = true)
      ∧ (mainRun os env fs f).trace.countP Step.isGenerate = 1
      ∧ (mainRun os env fs f).clang_args = some args := by
  refine ⟨(resolveInstallDirs os env fs f).2.1,
    (match (resolveInstallDirs os env fs f).1 with
     | some d => get_lib_dirs f d
     | none => []).map Step.emitLinkSearch
      ++ (get_static_link_libs os f).map Step.emitStaticLib
      ++ (get_dynamic_link_libs os f).map Step.emitDynLib,
    get_cflags os f (resolveInstallDirs os env fs f).1, ?_, ?_, ?_, ?_, ?_⟩
  · rw [mainRun_trace_decomp os env fs f hm]
    simp [List.append_assoc]
  · rcases resolveTrace_cases os env fs f with h | h | h | h <;> rw [h] <;> decide
  · intro s hs
    simp only [List.mem_append, List.mem_map] at hs
    rcases hs with (⟨a, _, rfl⟩ | ⟨a, _, rfl⟩) | ⟨a, _, rfl⟩ <;> rfl
  · rw [mainRun_trace_decomp os env fs f hm]
    rcases resolveTrace_cases os env fs f with h | h | h | h <;>
      rw [h] <;>
      simp [List.countP_append, List.countP_map, List.countP_cons, List.countP_nil,
        Function.comp_def, countP_const_false, Step.isGenerate]
  · exact mainRun_clang_args os env fs f hm

/-- Witness for `main_step_order` at a concrete axpy-only linux invocation. -/
theorem main_step_order_witness :
    ∃ (resolution emission : List Step) (args : List String),
      (mainRun TargetOS.linux (fun _ => none) (fun _ => false)
          ⟨false, false, true, false, false, false, false, false, false⟩).trace =
        resolution ++ emission
          ++ [Step.computeCflags args, Step.selectAllowlists, Step.generateBindings args]
      ∧ (∀ s ∈ resolution, s.isResolve = true)
      ∧ (∀ s ∈ emission, s.isEmit = true)
      ∧ (mainRun TargetOS.linux (fun _ => none) (fun _ => false)
          ⟨false, false, true, false, false, false, false, false, false⟩).trace.countP
          Step.isGenerate = 1
      ∧ (mainRun TargetOS.linux (fun _ => none) (fun _ => false)
          ⟨false, false, true, false, false, false, false, false, false⟩).clang_args
          = some args :=
  main_step_order TargetOS.linux (fun _ => none) (fun _ => false)
    ⟨false, false, true, false, false, false, false, false, false⟩ rfl

/-- C9: resolution tries the three strategies in fixed precedence order,
each consulted only after all earlier ones failed (the trace is one of four
shapes); `try_custom_env` succeeds exactly when `MKL_LIB_DIR` and
`MKL_INCLUDE_DIR` are set together with `TBB_LIB_DIR` / `OMP_LIB_DIR` when
the corresponding feature is enabled; a success of an earlier strategy
means the later strategies are never attempted; `try_system` is an error on
every non-linux target OS; and when all three strategies fail the build
still proceeds: no link-search directive is emitted, but the generator still
runs. -/
theorem resolution_precedence (os : TargetOS) (env : Env) (fs : FS) (f : Features) :
    ((resolveInstallDirs os env fs f).2.1 = [Step.resolveCustomEnv true]
     ∨ (resolveInstallDirs os env fs f).2.1
         = [Step.resolveCustomEnv false, Step.resolveEnvRoot true]
     ∨ (resolveInstallDirs os env fs f).2.1
         = [Step.resolveCustomEnv false, Step.resolveEnvRoot false, Step.resolveSystem true]
     ∨ (resolveInstallDirs os env fs f).2.1
         = [Step.resolveCustomEnv false, Step.resolveEnvRoot false, Step.resolveSystem false])
    ∧ ((∃ v, try_custom_env env fs f = Except.ok v) ↔
        ((env "MKL_LIB_DIR").isSome = true ∧ (env "MKL_INCLUDE_DIR").isSome = true
         ∧ (f.tbb = true → (env "TBB_LIB_DIR").isSome = true)
         ∧ (f.openmp = true → (env "OMP_LIB_DIR").isSome = true)))
    ∧ (∀ v, try_custom_env env fs f = Except.ok v →
        (resolveInstallDirs os env fs f).2.1 = [Step.resolveCustomEnv true])
    ∧ (os ≠ TargetOS.linux →
        try_system os fs f
          = Except.error "Cannot determine default MKL installation path in target OS")
    ∧ ((resolveInstallDirs os env fs f).1 = none → moduleFeatureSelected f = true →
        (mainRun os env fs f).trace.countP Step.isEmitLinkSearch = 0
        ∧ (mainRun os env fs f).trace.countP Step.isGenerate = 1) := by
  refine ⟨resolveTrace_cases os env fs f, ?_, ?_, ?_, ?_⟩
  · rcases h1 : env "MKL_LIB_DIR" with _ | a <;>
    rcases h2 : env "MKL_INCLUDE_DIR" with _ | b <;>
    rcases h3 : env "TBB_LIB_DIR" with _ | c <;>
    rcases h4 : env "OMP_LIB_DIR" with _ | d <;>
    cases ht : f.tbb <;>
    cases ho : f.openmp <;>
    simp [try_custom_env, try_custom, pathToStr, h1, h2, h3, h4, ht, ho]
  · intro v hv
    simp [resolveInstallDirs, hv]
  · intro hos
    simp [try_system, hos]
  · intro hnone hm
    rw [mainRun_trace_decomp os env fs f hm, hnone]
    rcases resolveTrace_cases os env fs f with h | h | h | h <;>
      rw [h] <;>
      constructor <;>
      simp [List.countP_append, List.countP_map, List.countP_cons, List.countP_nil,
        Function.comp_def, countP_const_false, Step.isEmitLinkSearch, Step.isGenerate]

/-- Witness for `resolution_precedence` on windows with an empty environment
and filesystem and only the axpy module feature. -/
theorem resolution_precedence_witness :
    (try_system TargetOS.windows (fun _ => false)
        ⟨false, false, true, false, false, false, false, false, false⟩
      = Except.error "Cannot determine default MKL installation path in target OS")
    ∧ ((mainRun TargetOS.windows (fun _ => none) (fun _ => false)
          ⟨false, false, true, false, false, false, false, false, false⟩).trace.countP
          Step.isEmitLinkSearch = 0
       ∧ (mainRun TargetOS.windows (fun _ => none) (fun _ => false)
          ⟨false, false, true, false, false, false, false, false, false⟩).trace.countP
          Step.isGenerate = 1) :=
  ⟨(resolution_precedence TargetOS.windows (fun _ => none) (fun _ => false)
      ⟨false, false, true, false, false, false, false, false, false⟩).2.2.2.1 (by decide),
   (resolution_precedence TargetOS.windows (fun _ => none) (fun _ => false)
      ⟨false, false, true, false, false, false, false, false, false⟩).2.2.2.2 rfl rfl⟩

/-- The environment variables the build script reads. -/
def relevantVars : List String :=
  ["MKL_LIB_DIR", "MKL_INCLUDE_DIR", "TBB_LIB_DIR", "OMP_LIB_DIR", "ONEAPI_ROOT", "OUT_DIR"]

/-- C4: the build script is deterministic and reads only the six named
environment variables: two runs whose environments agree on
`MKL_LIB_DIR`, `MKL_INCLUDE_DIR`, `TBB_LIB_DIR`, `OMP_LIB_DIR`,
`ONEAPI_ROOT` and `OUT_DIR`, with identical filesystem state and the same
target OS and features, produce identical cargo directives, identical clang
argument lists, and identical results in every component. -/
theorem build_deterministic (os : TargetOS) (f : Features) (env1 env2 : Env)
    (fs1 fs2 : FS)
    (henv : ∀ v ∈ relevantVars, env1 v = env2 v)
    (hfs : ∀ p, fs1 p = fs2 p) :
    mainRun os env1 fs1 f = mainRun os env2 fs2 f := by
  have hfs2 : fs1 = fs2 := funext hfs
  subst hfs2
  have h1 : env1 "MKL_LIB_DIR" = env2 "MKL_LIB_DIR" := henv _ (by simp [relevantVars])
  have h2 : env1 "MKL_INCLUDE_DIR" = env2 "MKL_INCLUDE_DIR" := henv _ (by simp [relevantVars])
  have h3 : env1 "TBB_LIB_DIR" = env2 "TBB_LIB_DIR" := henv _ (by simp [relevantVars])
  have h4 : env1 "OMP_LIB_DIR" = env2 "OMP_LIB_DIR" := henv _ (by simp [relevantVars])
  have h5 : env1 "ONEAPI_ROOT" = env2 "ONEAPI_ROOT" := henv _ (by simp [relevantVars])
  have h6 : env1 "OUT_DIR" = env2 "OUT_DIR" := henv _ (by simp [relevantVars])
  have hce : try_custom_env env1 fs1 f = try_custom_env env2 fs1 f := by
    unfold try_custom_env
    rw [h1, h2, h3, h4]
  have her : try_from_env_root os env1 fs1 f = try_from_env_root os env2 fs1 f := by
    unfold try_from_env_root
    rw [h5]
  have hr : resolveInstallDirs os env1 fs1 f = resolveInstallDirs os env2 fs1 f := by
    unfold resolveInstallDirs
    rw [hce, her]
  unfold mainRun
  rw [hr, h6]

/-- Witness for `build_deterministic`: the two environments differ on an
irrelevant variable yet yield the same build result. -/
theorem build_deterministic_witness :
    mainRun TargetOS.linux (fun v => if v = "HOME" then some "/root" else none)
        (fun _ => false) ⟨false, false, true, false, false, false, false, false, false⟩
      = mainRun TargetOS.linux (fun _ => none) (fun _ => false)
        ⟨false, false, true, false, false, false, false, false, false⟩ :=
  build_deterministic TargetOS.linux
    ⟨false, false, true, false, false, false, false, false, false⟩
    (fun v => if v = "HOME" then some "/root" else none) (fun _ => none)
    (fun _ => false) (fun _ => false) (by decide) (fun _ => rfl)

/-- Claim-side description of the function allowlist patterns of the enabled
module features (spec sentence of C5), in source registration order:
axpy, dss, sparse-matrix-checker, extended-eigensolver,
inspector-executor. -/
def claimAllowFunctions (f : Features) : List String :=
  (if f.axpy = true then ["daxpy", "cblas_daxpy"] else [])
  ++ (if f.dss = true then [dss_regex] else [])
  ++ (if f.sparse_matrix_checker = true then
        ["sparse_matrix_checker*", "sparse_matrix_checker_init*"] else [])
  ++ (if f.extended_eigensolver = true then
        [".*feast.*", "mkl_sparse_ee_init", "mkl_sparse_._svd",
         "mkl_sparse_._ev", "mkl_sparse_._gv"] else [])
  ++ (if f.inspector_executor = true then ["mkl_sparse_.*"] else [])

/-- Claim-side description of the type and variable allowlist patterns: only
the dss feature registers any. -/
def claimAllowTypesVars (f : Features) : List String :=
  if f.dss = true then [dss_regex] else []

/-- C5: when the `all` feature is enabled no allowlist is applied (the
builder is untouched, so bindgen generates all symbols); otherwise the
registered allowlist patterns are exactly the union (in source order) of the
per-feature allowlists: axpy contributes `daxpy` and `cblas_daxpy`, dss the
regex over function, type and variable names, sparse-matrix-checker and
extended-eigensolver and inspector-executor their function patterns. -/
theorem allowlists_spec (f : Features) (b : Builder) :
    applyAllowlists f b =
      if f.all = true then b
      else
        { allow_functions := b.allow_functions ++ claimAllowFunctions f,
          allow_types := b.allow_types ++ claimAllowTypesVars f,
          allow_vars := b.allow_vars ++ claimAllowTypesVars f } := by
  obtain ⟨al, ds, ax, sm, ee, ie, il, om, tb⟩ := f
  obtain ⟨bf, bt, bv⟩ := b
  cases al <;> cases ds <;> cases ax <;> cases sm <;> cases ee <;> cases ie <;>
    simp [applyAllowlists, claimAllowFunctions, claimAllowTypesVars]

/-- The `bindgen::callbacks::IntKind` values used by `build.rs`. -/
inductive IntKind where
  | i32
  | i64
deriving DecidableEq, Repr

/-- UTF-8 bytes of the string literal `"MKL_"` compared against
`&name[..4]`. -/
def mklPrefixBytes : List Nat := [77, 75, 76, 95]

/-- A UTF-8 continuation byte (`0x80..=0xBF`). -/
def contByte (b : Nat) : Bool := decide (128 ≤ b) && decide (b < 192)

/-- Rust `str::is_char_boundary` at byte index `i` of a string given by its
UTF-8 bytes: the index equals the length, or it is in range and the byte
there is not a continuation byte. -/
def isCharBoundary (bytes : List Nat) (i : Nat) : Bool :=
  i == bytes.length || (decide (i < bytes.length) && !contByte (bytes.getD i 0))

/-- One-byte-at-a-time UTF-8 validity check: `expect` counts the
continuation bytes still owed by the current character. At a character
start, the leading byte determines how many continuation bytes follow. -/
def validUtf8From (expect : Nat) : List Nat → Bool
  | [] => expect == 0
  | b :: rest =>
    match expect with
    | 0 =>
      if b < 128 then validUtf8From 0 rest
      else if b < 194 then false
      else if b < 224 then validUtf8From 1 rest
      else if b < 240 then validUtf8From 2 rest
      else if b < 245 then validUtf8From 3 rest
      else false
    | e + 1 => contByte b && validUtf8From e rest

/-- Validity of a UTF-8 byte sequence (a superset of Rust `&str` contents:
overlong and surrogate encodings are not excluded, which only widens the
quantifiers of the theorems below). -/
def validUtf8 (l : List Nat) : Bool := validUtf8From 0 l

/-- Method `Callbacks::int_macro` of `build.rs`, with the macro name given
by its UTF-8 byte sequence. The expression `&name[..4]` panics when
`4 > name.len()` or byte index 4 is not a char boundary; a panic is
modelled as the outer `none`, a normal return as `some` of the returned
`Option<IntKind>`: `Some(I64)`/`Some(I32)` by the `ilp64` feature when the
first four bytes are `"MKL_"`, `None` otherwise. -/
def int_macro (ilp64 : Bool) (name : List Nat) : Option (Option IntKind) :=
  if 4 ≤ name.length ∧ isCharBoundary name 4 = true then
    some (if name.take 4 = mklPrefixBytes then
            some (if ilp64 = true then IntKind.i64 else IntKind.i32)
          else none)
  else none

/-- The first byte of a valid UTF-8 sequence is never a continuation
byte. -/
theorem validUtf8_head_not_cont (b : Nat) (l : List Nat)
    (h : validUtf8 (b :: l) = true) : contByte b = false := by
  by_cases h128 : b < 128
  · simp only [contByte, Bool.and_eq_false_iff, decide_eq_false_iff_not]
    left
    omega
  · by_cases h194 : b < 194
    · exfalso
      unfold validUtf8 validUtf8From at h
      rw [if_neg h128, if_pos h194] at h
      exact Bool.false_ne_true h
    · simp only [contByte, Bool.and_eq_false_iff, decide_eq_false_iff_not]
      right
      omega

/-- Byte index 4 is a char boundary of any byte sequence whose first four
bytes are followed by a valid UTF-8 tail. -/
theorem isCharBoundary_four (b0 b1 b2 b3 : Nat) (rest : List Nat)
    (h : validUtf8 rest = true) :
    isCharBoundary (b0 :: b1 :: b2 :: b3 :: rest) 4 = true := by
  cases rest with
  | nil => rfl
  | cons r0 rest2 =>
    have hc := validUtf8_head_not_cont r0 rest2 h
    simp [isCharBoundary, hc, List.getD]

/-- Taking four elements of a list that starts with four conses yields
those four head elements. -/
theorem take_four_cons (b0 b1 b2 b3 : Nat) (l : List Nat) :
    (b0 :: b1 :: b2 :: b3 :: l).take 4 = [b0, b1, b2, b3] := rfl

/-- C10 counterexample: the macro name `abcé` is a valid Rust string of
five UTF-8 bytes, so it has length at least 4 and its first four bytes are
not `MKL_`, yet `Callbacks::int_macro` panics on it (byte index 4 falls
inside the two-byte character `é`) instead of returning `None` as the claim
states. -/
theorem int_macro_cex :
    validUtf8 [97, 98, 99, 195, 169] = true
    ∧ 4 ≤ ([97, 98, 99, 195, 169] : List Nat).length
    ∧ ([97, 98, 99, 195, 169] : List Nat).take 4 ≠ mklPrefixBytes
    ∧ int_macro false [97, 98, 99, 195, 169] ≠ some none
    ∧ int_macro false [97, 98, 99, 195, 169] = none := by
  decide

/-- C10 (amended): for every valid UTF-8 macro name, when the first four
bytes are `MKL_` the callback returns `Some(I64)` with the `ilp64` feature
and `Some(I32)` without it; for every other name of at least 4 bytes whose
byte index 4 is a char boundary it returns `None`; and the slice
`name[..4]` panics for any name shorter than 4 bytes, and more generally
whenever byte index 4 is not a char boundary. -/
theorem int_macro_amended (ilp64 : Bool) (name : List Nat)
    (hv : validUtf8 name = true) :
    (name.take 4 = mklPrefixBytes →
        int_macro ilp64 name
          = some (some (if ilp64 = true then IntKind.i64 else IntKind.i32)))
    ∧ (4 ≤ name.length → isCharBoundary name 4 = true →
        name.take 4 ≠ mklPrefixBytes → int_macro ilp64 name = some none)
    ∧ (name.length < 4 → int_macro ilp64 name = none)
    ∧ (isCharBoundary name 4 = false → int_macro ilp64 name = none) := by
  refine ⟨?_, ?_, ?_, ?_⟩
  · intro ht
    have hname : name = 77 :: 75 :: 76 :: 95 :: name.drop 4 := by
      nth_rewrite 1 [← List.take_append_drop 4 name]
      rw [ht]
      rfl
    rw [hname] at hv ⊢
    have hv4 : validUtf8 (name.drop 4) = true := by
      simpa [validUtf8, validUtf8From] using hv
    have hb := isCharBoundary_four 77 75 76 95 (name.drop 4) hv4
    unfold int_macro
    rw [if_pos (And.intro (by simp only [List.length_cons]; omega) hb),
      if_pos (by rfl)]
  · intro h4 hb ht
    unfold int_macro
    rw [if_pos (And.intro h4 hb), if_neg ht]
  · intro hlen
    unfold int_macro
    rw [if_neg]
    rintro ⟨h4, _⟩
    omega
  · intro hbf
    unfold int_macro
    rw [if_neg]
    rintro ⟨_, hb⟩
    rw [hbf] at hb
    exact Bool.false_ne_true hb

/-- Witness for `int_macro_amended` at the names `MKL_X` (ilp64 on),
`abcd`, and the two-byte name `MK`. -/
theorem int_macro_amended_witness :
    int_macro true [77, 75, 76, 95, 88] = some (some IntKind.i64)
    ∧ int_macro false [97, 98, 99, 100] = some none
    ∧ int_macro false [77, 75] = none :=
  ⟨(int_macro_amended true [77, 75, 76, 95, 88] (by decide)).1 (by decide),
   (int_macro_amended false [97, 98, 99, 100] (by decide)).2.1 (by decide)
     (by decide) (by decide),
   (int_macro_amended false [77, 75] (by decide)).2.2.1 (by decide)⟩
